import Mathlib

/-!
Shallow embedding of the input-translation core of
`src/qt/qt_winrawinputfilter.cpp` (86Box Windows raw-input filter):
the keyboard decoder (`keyboard_handle`), the mouse decoder
(`mouse_handle`) and the device-type dispatch (`handle_input`).

Machine integers are modelled as `Nat`/`Int`; C signed division (which
truncates toward zero) is `Int.tdiv`; the `(SHORT)` cast of a `USHORT`
is made explicit.  Calls to external collaborators (`keyboard_input`,
`mouse_set_buttons_ex`, `mouse_set_z`, `mouse_scale`, `SetCursorPos`,
`MainWindow::checkFullscreenHotkey`, `win_joystick_handle`) are
modelled as emitted output actions, so that "what reaches the emulated
device" is the list of emitted actions.
-/

namespace WinRawInput

/-- C signed integer division: truncation toward zero (`Int.tdiv`),
    matching the semantics of `/` on C `int`/`LONG`/`SHORT`. -/
def cDiv (a b : Int) : Int := Int.tdiv a b

/-- Test of `flags & bit` as a C truth value (nonzero = true). -/
def hasFlag (flags bit : Nat) : Bool := flags &&& bit != 0

/-- The `(SHORT)` cast of a `USHORT` value, as in
    `(SHORT) state.usButtonData`: reinterpret 16 bits as two's
    complement. -/
def toSHORT (v : Nat) : Int :=
  if v < 0x8000 then (v : Int) else (v : Int) - 0x10000

/-! ## Windows raw-input constants (winuser.h values used by the source) -/

def RI_MOUSE_LEFT_BUTTON_DOWN : Nat := 0x0001
def RI_MOUSE_LEFT_BUTTON_UP : Nat := 0x0002
def RI_MOUSE_RIGHT_BUTTON_DOWN : Nat := 0x0004
def RI_MOUSE_RIGHT_BUTTON_UP : Nat := 0x0008
def RI_MOUSE_MIDDLE_BUTTON_DOWN : Nat := 0x0010
def RI_MOUSE_MIDDLE_BUTTON_UP : Nat := 0x0020
def RI_MOUSE_BUTTON_4_DOWN : Nat := 0x0040
def RI_MOUSE_BUTTON_4_UP : Nat := 0x0080
def RI_MOUSE_BUTTON_5_DOWN : Nat := 0x0100
def RI_MOUSE_BUTTON_5_UP : Nat := 0x0200
def RI_MOUSE_WHEEL : Nat := 0x0400
def MOUSE_MOVE_ABSOLUTE : Nat := 0x01

/-! ## Keyboard decoder -/

/-- A `RAWKEYBOARD` report as consumed by `keyboard_handle`.
    `MakeCode` is the raw USHORT make code; the three booleans are the
    tested bits of `Flags` (`RI_KEY_BREAK` = 1, `RI_KEY_E0` = 2,
    `RI_KEY_E1` = 4). -/
structure RawKeyboard where
  makeCode : Nat
  e0 : Bool
  e1 : Bool
  isBreak : Bool
deriving DecidableEq

/-- A call `keyboard_input(pressed, scancode)` into the emulated
    keyboard sink. -/
structure KeyEvent where
  pressed : Bool
  scancode : Nat
deriving DecidableEq

/-- Read-only configuration of the keyboard decoder: the externally
    populated remap table `scancode_map` and the `rctrl_is_lalt`
    config flag. -/
structure KbConfig where
  scancode_map : Nat → Nat
  rctrl_is_lalt : Bool

/-- Modelled from the spec: the number of entries of the external
    array `scancode_map` (its declaration is not part of this source
    slice; the source computes `sizeof(scancode_map) /
    sizeof(scancode_map[0])`).  Per the spec the table is "indexed by
    a 9-bit canonical scan code (0x000–0x1FF)", hence 512 entries. -/
def scancodeMapLen : Nat := 512

/-- Modelled from the spec: the external helper `convert_scan_code`
    (declared in `86box/keyboard.h`, not part of this source slice).
    Per the spec the canonical scan code is exactly the make code with
    the E0 bit set ("this yields the canonical scan code"), so the
    conversion leaves the already 9-bit code unchanged. -/
def convert_scan_code (scancode : Nat) : Nat := scancode

/-- The canonical scan code of a non-E1 report, as it enters the remap
    lookup: `makeCode`, with bit 0x100 set when the E0 flag is present,
    then passed through `convert_scan_code`. -/
def canonical_scancode (kb : RawKeyboard) : Nat :=
  convert_scan_code (kb.makeCode ||| (if kb.e0 then 0x100 else 0))

/-- The scan code after the general remap lookup: a ScancodeMap entry
    is substituted when the code is in bounds and the entry differs. -/
def remapped_scancode (cfg : KbConfig) (kb : RawKeyboard) : Nat :=
  let sc := canonical_scancode kb
  if sc < scancodeMapLen ∧ sc ≠ cfg.scancode_map sc then cfg.scancode_map sc else sc

/-- The scan code finally emitted on the non-E1 path: after the remap
    lookup, `0x11D` becomes `0x038` when `rctrl_is_lalt` is set. -/
def final_scancode (cfg : KbConfig) (kb : RawKeyboard) : Nat :=
  let sc := remapped_scancode cfg kb
  if sc = 0x11D ∧ cfg.rctrl_is_lalt then 0x038 else sc

/-- The scan code produced by the E1 branch: `E1 1D` is translated to
    the table entry at the reserved index 0x100; any other E1 make
    code becomes the invalid sentinel 0xFFFF. -/
def e1_scancode (cfg : KbConfig) (kb : RawKeyboard) : Nat :=
  if kb.makeCode = 0x1D then cfg.scancode_map 0x100 else 0xFFFF

/-- Result of `keyboard_handle` on one report: the `keyboard_input`
    call, if any, and whether `window->checkFullscreenHotkey()` was
    invoked. -/
structure KbOut where
  event : Option KeyEvent
  fullscreenHotkey : Bool
deriving DecidableEq

/-- `WindowsRawInputFilter::keyboard_handle`. -/
def keyboard_handle (cfg : KbConfig) (kb : RawKeyboard) : KbOut :=
  if kb.e1 then
    let scancode := e1_scancode cfg kb
    { event := if scancode ≠ 0xFFFF then some ⟨!kb.isBreak, scancode⟩ else none,
      fullscreenHotkey := false }
  else
    let scancode := final_scancode cfg kb
    { event := if scancode ≠ 0xFFFF then some ⟨!kb.isBreak, scancode⟩ else none,
      fullscreenHotkey := true }

/-! ## Mouse decoder -/

/-- A `RAWMOUSE` report as consumed by `mouse_handle`. -/
structure RawMouse where
  usFlags : Nat
  usButtonFlags : Nat
  usButtonData : Nat
  lLastX : Int
  lLastY : Int
deriving DecidableEq

/-- Mutable state touched by `mouse_handle`: the function-local
    statics `x`, `y` (last absolute sample) and the externally owned
    emulated button mask, read via `mouse_get_buttons_ex()` and
    written via `mouse_set_buttons_ex()`. -/
structure MouseState where
  x : Int
  y : Int
  buttons : Nat
deriving DecidableEq

/-- The C statics `x` and `y` are zero-initialized at process start;
    the emulated button store also starts empty. -/
def initMouseState : MouseState := ⟨0, 0, 0⟩

/-- Calls made by `mouse_handle` into its external collaborators, in
    order: `mouse_set_buttons_ex`, `mouse_set_z`, `mouse_scale`,
    `SetCursorPos`. -/
inductive MouseAction where
  | setButtons (b : Nat)
  | setWheel (z : Int)
  | scale (dx dy : Int)
  | setCursorPos (cx cy : Int)
deriving DecidableEq

/-- One `if DOWN ... else if UP ...` block of the button read-modify-
    write: a DOWN flag sets the button's bit (`b |= bit`), otherwise an
    UP flag clears it (`b &= ~bit`, `Nat.ldiff`). -/
def button_step (flags down up bit b : Nat) : Nat :=
  if hasFlag flags down then b ||| bit
  else if hasFlag flags up then Nat.ldiff b bit
  else b

/-- The five sequential button blocks of `mouse_handle` (source order:
    left, middle, right, button 4, button 5). -/
def update_buttons (flags b : Nat) : Nat :=
  let b1 := button_step flags RI_MOUSE_LEFT_BUTTON_DOWN RI_MOUSE_LEFT_BUTTON_UP 1 b
  let b2 := button_step flags RI_MOUSE_MIDDLE_BUTTON_DOWN RI_MOUSE_MIDDLE_BUTTON_UP 4 b1
  let b3 := button_step flags RI_MOUSE_RIGHT_BUTTON_DOWN RI_MOUSE_RIGHT_BUTTON_UP 2 b2
  let b4 := button_step flags RI_MOUSE_BUTTON_4_DOWN RI_MOUSE_BUTTON_4_UP 8 b3
  button_step flags RI_MOUSE_BUTTON_5_DOWN RI_MOUSE_BUTTON_5_UP 16 b4

/-- The static `delta_z`: the signed notch value divided by 120 when
    the wheel flag is present, 0 otherwise. -/
def wheelDelta (m : RawMouse) : Int :=
  if hasFlag m.usButtonFlags RI_MOUSE_WHEEL then cDiv (toSHORT m.usButtonData) 120
  else 0

/-- The `delta_x`/`delta_y` pair: in absolute mode the difference to
    the previous sample divided by 25, in relative mode the raw
    sample. -/
def motion_delta (m : RawMouse) (s : MouseState) : Int × Int :=
  if hasFlag m.usFlags MOUSE_MOVE_ABSOLUTE then
    (cDiv (m.lLastX - s.x) 25, cDiv (m.lLastY - s.y) 25)
  else (m.lLastX, m.lLastY)

/-- The window rectangle delivered by `GetWindowRect` (external). -/
structure Rect where
  left : Int
  top : Int
  right : Int
  bottom : Int
deriving DecidableEq

/-- The point passed to `SetCursorPos`: the center of the window
    rectangle. -/
def rect_center (r : Rect) : Int × Int :=
  (r.left + cDiv (r.right - r.left) 2, r.top + cDiv (r.bottom - r.top) 2)

/-- `WindowsRawInputFilter::mouse_handle`: returns the updated mutable
    state and the ordered calls into the external collaborators. -/
def mouse_handle (rect : Rect) (m : RawMouse) (s : MouseState) :
    MouseState × List MouseAction :=
  let b := update_buttons m.usButtonFlags s.buttons
  let d := motion_delta m s
  let c := rect_center rect
  let s' : MouseState :=
    if hasFlag m.usFlags MOUSE_MOVE_ABSOLUTE then ⟨m.lLastX, m.lLastY, b⟩
    else ⟨s.x, s.y, b⟩
  (s',
    (MouseAction.setButtons b ::
      (if hasFlag m.usButtonFlags RI_MOUSE_WHEEL then [MouseAction.setWheel (wheelDelta m)]
       else []) ++ [MouseAction.scale d.1 d.2]) ++ [MouseAction.setCursorPos c.1 c.2])

/-! ## Dispatch -/

/-- A raw input record tagged by `header.dwType`:
    `RIM_TYPEKEYBOARD`, `RIM_TYPEMOUSE`, `RIM_TYPEHID`, or an
    unrecognized type value. -/
inductive RawInput where
  | keyboard (kb : RawKeyboard)
  | mouse (m : RawMouse)
  | hid
  | other (t : Nat)
deriving DecidableEq

/-- Externally visible calls made while handling one raw report. -/
inductive Effect where
  | keyEvent (e : KeyEvent)
  | fullscreenHotkeyCheck
  | mouseAct (a : MouseAction)
  | joystick
deriving DecidableEq

/-- The keyboard branch's calls in source order: `keyboard_input`
    first (when an event is emitted), then the fullscreen-hotkey
    check (when on the non-E1 path). -/
def kbEffects (o : KbOut) : List Effect :=
  (match o.event with
   | some e => [Effect.keyEvent e]
   | none => []) ++
  (if o.fullscreenHotkey then [Effect.fullscreenHotkeyCheck] else [])

/-- The `switch (raw->header.dwType)` of
    `WindowsRawInputFilter::handle_input`: keyboard reports are always
    decoded; mouse reports are handled only when the global
    `mouse_capture` flag is set; HID reports go to the external
    joystick handler; any other type falls through with no effect. -/
def handle_input (cfg : KbConfig) (rect : Rect) (mouse_capture : Bool)
    (raw : RawInput) (s : MouseState) : MouseState × List Effect :=
  match raw with
  | .keyboard kb => (s, kbEffects (keyboard_handle cfg kb))
  | .mouse m =>
      if mouse_capture then
        let r := mouse_handle rect m s
        (r.1, r.2.map Effect.mouseAct)
      else (s, [])
  | .hid => (s, [Effect.joystick])
  | .other _ => (s, [])

/-! ## Helper lemmas -/

/-- A button block leaves every bit outside its own button bit
    unchanged, whichever of its three branches is taken. -/
theorem button_step_testBit_ne (flags down up bit b i : Nat)
    (hb : bit.testBit i = false) :
    (button_step flags down up bit b).testBit i = b.testBit i := by
  unfold button_step
  split
  · simp [Nat.testBit_lor, hb]
  · split
    · simp [Nat.testBit_ldiff, hb]
    · rfl

/-- When the DOWN flag of a block is present, the block is exactly
    `b |= bit`, so the UP flag of that block is never consulted. -/
theorem button_step_down (flags down up bit b : Nat)
    (h : hasFlag flags down = true) :
    button_step flags down up bit b = b ||| bit := by
  simp [button_step, h]

/-! ## Claims -/

/-- C10: in a mouse report whose button-flag mask holds both the DOWN
    and the UP transition flag of the same button, the DOWN flag takes
    priority: that button's bit is set in the mask produced by the
    read-modify-write, for each of the 5 buttons independently. -/
theorem c10_down_wins_over_up (flags b : Nat) :
    (hasFlag flags RI_MOUSE_LEFT_BUTTON_DOWN = true →
     hasFlag flags RI_MOUSE_LEFT_BUTTON_UP = true →
     (update_buttons flags b).testBit 0 = true) ∧
    (hasFlag flags RI_MOUSE_RIGHT_BUTTON_DOWN = true →
     hasFlag flags RI_MOUSE_RIGHT_BUTTON_UP = true →
     (update_buttons flags b).testBit 1 = true) ∧
    (hasFlag flags RI_MOUSE_MIDDLE_BUTTON_DOWN = true →
     hasFlag flags RI_MOUSE_MIDDLE_BUTTON_UP = true →
     (update_buttons flags b).testBit 2 = true) ∧
    (hasFlag flags RI_MOUSE_BUTTON_4_DOWN = true →
     hasFlag flags RI_MOUSE_BUTTON_4_UP = true →
     (update_buttons flags b).testBit 3 = true) ∧
    (hasFlag flags RI_MOUSE_BUTTON_5_DOWN = true →
     hasFlag flags RI_MOUSE_BUTTON_5_UP = true →
     (update_buttons flags b).testBit 4 = true) := by
  simp only [update_buttons]
  refine ⟨fun h _ => ?_, fun h _ => ?_, fun h _ => ?_, fun h _ => ?_, fun h _ => ?_⟩
  · rw [button_step_down _ _ _ _ _ h,
      button_step_testBit_ne _ _ _ 16 _ 0 (by decide),
      button_step_testBit_ne _ _ _ 8 _ 0 (by decide),
      button_step_testBit_ne _ _ _ 2 _ 0 (by decide),
      button_step_testBit_ne _ _ _ 4 _ 0 (by decide)]
    simp [Nat.testBit_lor, (by decide : Nat.testBit 1 0 = true)]
  · rw [button_step_down _ _ _ _ _ h,
      button_step_testBit_ne _ _ _ 16 _ 1 (by decide),
      button_step_testBit_ne _ _ _ 8 _ 1 (by decide)]
    simp [Nat.testBit_lor, (by decide : Nat.testBit 2 1 = true)]
  · rw [button_step_down _ _ _ _ _ h,
      button_step_testBit_ne _ _ _ 16 _ 2 (by decide),
      button_step_testBit_ne _ _ _ 8 _ 2 (by decide),
      button_step_testBit_ne _ _ _ 2 _ 2 (by decide)]
    simp [Nat.testBit_lor, (by decide : Nat.testBit 4 2 = true)]
  · rw [button_step_down _ _ _ _ _ h,
      button_step_testBit_ne _ _ _ 16 _ 3 (by decide)]
    simp [Nat.testBit_lor, (by decide : Nat.testBit 8 3 = true)]
  · rw [button_step_down _ _ _ _ _ h]
    simp [Nat.testBit_lor, (by decide : Nat.testBit 16 4 = true)]

/-- C10 witness: with every DOWN and every UP flag set at once, all
    five button bits end up set. -/
theorem c10_down_wins_over_up_witness :
    (update_buttons 0x3FF 0).testBit 0 = true ∧
    (update_buttons 0x3FF 0).testBit 1 = true ∧
    (update_buttons 0x3FF 0).testBit 2 = true ∧
    (update_buttons 0x3FF 0).testBit 3 = true ∧
    (update_buttons 0x3FF 0).testBit 4 = true := by
  have h := c10_down_wins_over_up 0x3FF 0
  exact ⟨h.1 (by decide) (by decide), h.2.1 (by decide) (by decide),
    h.2.2.1 (by decide) (by decide), h.2.2.2.1 (by decide) (by decide),
    h.2.2.2.2 (by decide) (by decide)⟩

/-- C4: for every non-E1 keyboard report (make codes are single
    hardware bytes, below 0x100), the canonical scan code entering the
    remap lookup is `makeCode | (0x100 if E0 else 0)`, and it is
    always below 0x200. -/
theorem c4_canonical_scancode (kb : RawKeyboard)
    (_he : kb.e1 = false) (hm : kb.makeCode < 0x100) :
    canonical_scancode kb = kb.makeCode ||| (if kb.e0 then 0x100 else 0) ∧
    canonical_scancode kb < 0x200 := by
  refine ⟨rfl, ?_⟩
  unfold canonical_scancode convert_scan_code
  cases kb.e0 with
  | false =>
      have h2 : kb.makeCode ||| (if (false : Bool) = true then 0x100 else 0) =
          kb.makeCode := by simp
      rw [h2]
      omega
  | true =>
      have h2 : kb.makeCode ||| (if (true : Bool) = true then 0x100 else 0) =
          kb.makeCode ||| 0x100 := by simp
      rw [h2]
      have h3 : kb.makeCode ||| 0x100 < 2 ^ 9 :=
        Nat.or_lt_two_pow (lt_of_lt_of_le hm (by norm_num)) (by norm_num)
      simpa using h3

/-- C4 witness: make code 0x1D with the E0 flag canonicalizes to
    0x11D, which is below 0x200. -/
theorem c4_canonical_scancode_witness :
    canonical_scancode ⟨0x1D, true, false, false⟩ = 0x11D ∧
    canonical_scancode ⟨0x1D, true, false, false⟩ < 0x200 := by
  have h := c4_canonical_scancode ⟨0x1D, true, false, false⟩ rfl (by decide)
  exact ⟨h.1.trans (by decide), h.2⟩

/-- C5: on the non-E1 path, whenever the scan code after the general
    remap lookup is 0x11D and `rctrl_is_lalt` is enabled, the final
    scan code is 0x038 and the event sent to the emulated keyboard
    carries scancode 0x038, whatever the ScancodeMap holds. -/
theorem c5_rctrl_to_lalt (cfg : KbConfig) (kb : RawKeyboard)
    (he : kb.e1 = false) (hc : cfg.rctrl_is_lalt = true)
    (hr : remapped_scancode cfg kb = 0x11D) :
    final_scancode cfg kb = 0x038 ∧
    (keyboard_handle cfg kb).event = some ⟨!kb.isBreak, 0x038⟩ := by
  have hf : final_scancode cfg kb = 0x038 := by
    simp [final_scancode, hr, hc]
  exact ⟨hf, by simp [keyboard_handle, he, hf]⟩

/-- C5 witness: with an identity ScancodeMap (whose entry for 0x11D is
    0x11D itself) and the flag enabled, E0 1D is emitted as 0x038. -/
theorem c5_rctrl_to_lalt_witness :
    final_scancode ⟨fun c => c, true⟩ ⟨0x1D, true, false, false⟩ = 0x038 ∧
    (keyboard_handle ⟨fun c => c, true⟩ ⟨0x1D, true, false, false⟩).event =
      some ⟨true, 0x038⟩ := by
  have h := c5_rctrl_to_lalt ⟨fun c => c, true⟩ ⟨0x1D, true, false, false⟩
    rfl rfl (by decide)
  exact ⟨h.1, h.2⟩

/-- C6: malformed or out-of-domain inputs are silently suppressed: an
    E1 report whose make code is not 0x1D emits no event; either
    keyboard path whose resulting scan code is the 0xFFFF sentinel
    emits no event; a raw report of unrecognized device type leaves
    the state untouched and produces no effect. -/
theorem c6_silent_suppression (cfg : KbConfig) (rect : Rect) (cap : Bool)
    (t : Nat) (kb : RawKeyboard) (s : MouseState) :
    (kb.e1 = true → kb.makeCode ≠ 0x1D → (keyboard_handle cfg kb).event = none) ∧
    (kb.e1 = true → e1_scancode cfg kb = 0xFFFF → (keyboard_handle cfg kb).event = none) ∧
    (kb.e1 = false → final_scancode cfg kb = 0xFFFF →
      (keyboard_handle cfg kb).event = none) ∧
    handle_input cfg rect cap (.other t) s = (s, []) := by
  refine ⟨fun he hm => ?_, fun he hf => ?_, fun he hf => ?_, rfl⟩
  · simp [keyboard_handle, he, e1_scancode, hm]
  · simp [keyboard_handle, he, hf]
  · simp [keyboard_handle, he, hf]

/-- C6 witness: an E1 report with make code 0x2A, an E1 1D report
    whose table entry is the sentinel, a non-E1 report remapped to the
    sentinel, and a raw report of device type 5 all produce nothing. -/
theorem c6_silent_suppression_witness :
    (keyboard_handle ⟨fun c => c, false⟩ ⟨0x2A, false, true, false⟩).event = none ∧
    (keyboard_handle ⟨fun _ => 0xFFFF, false⟩ ⟨0x1D, false, true, false⟩).event = none ∧
    (keyboard_handle ⟨fun _ => 0xFFFF, false⟩ ⟨0x33, false, false, false⟩).event = none ∧
    handle_input ⟨fun c => c, false⟩ ⟨0, 0, 100, 100⟩ true (.other 5) initMouseState =
      (initMouseState, []) := by
  refine ⟨?_, ?_, ?_, ?_⟩
  · exact (c6_silent_suppression ⟨fun c => c, false⟩ ⟨0, 0, 100, 100⟩ true 5
      ⟨0x2A, false, true, false⟩ initMouseState).1 rfl (by decide)
  · exact (c6_silent_suppression ⟨fun _ => 0xFFFF, false⟩ ⟨0, 0, 100, 100⟩ true 5
      ⟨0x1D, false, true, false⟩ initMouseState).2.1 rfl (by decide)
  · exact (c6_silent_suppression ⟨fun _ => 0xFFFF, false⟩ ⟨0, 0, 100, 100⟩ true 5
      ⟨0x33, false, false, false⟩ initMouseState).2.2.1 rfl (by decide)
  · exact (c6_silent_suppression ⟨fun c => c, false⟩ ⟨0, 0, 100, 100⟩ true 5
      ⟨0x2A, false, true, false⟩ initMouseState).2.2.2

/-- C9: handling a non-E1 keyboard report invokes the fullscreen-
    hotkey check exactly once, as the last effect (after the emission
    logic), whether or not a key event was emitted; handling an E1
    report never invokes it. -/
theorem c9_fullscreen_hotkey (cfg : KbConfig) (rect : Rect) (cap : Bool)
    (kb : RawKeyboard) (s : MouseState) :
    (kb.e1 = false →
      (handle_input cfg rect cap (.keyboard kb) s).2.count Effect.fullscreenHotkeyCheck = 1 ∧
      (handle_input cfg rect cap (.keyboard kb) s).2.getLast? =
        some Effect.fullscreenHotkeyCheck) ∧
    (kb.e1 = true →
      (handle_input cfg rect cap (.keyboard kb) s).2.count Effect.fullscreenHotkeyCheck = 0) := by
  constructor
  · intro he
    by_cases hf : final_scancode cfg kb = 0xFFFF <;>
      simp [handle_input, keyboard_handle, kbEffects, he, hf, List.getLast?_concat]
  · intro he
    by_cases hf : e1_scancode cfg kb = 0xFFFF <;>
      simp [handle_input, keyboard_handle, kbEffects, he, hf]

/-- C9 witness: a non-E1 report (whether emitted or sentinel-
    suppressed) triggers exactly one trailing hotkey check; an E1
    report triggers none. -/
theorem c9_fullscreen_hotkey_witness :
    ((handle_input ⟨fun c => c, false⟩ ⟨0, 0, 100, 100⟩ true
        (.keyboard ⟨0x2A, false, false, false⟩) initMouseState).2.count
      Effect.fullscreenHotkeyCheck = 1 ∧
     (handle_input ⟨fun c => c, false⟩ ⟨0, 0, 100, 100⟩ true
        (.keyboard ⟨0x2A, false, false, false⟩) initMouseState).2.getLast? =
      some Effect.fullscreenHotkeyCheck) ∧
    (handle_input ⟨fun c => c, false⟩ ⟨0, 0, 100, 100⟩ true
        (.keyboard ⟨0x2A, false, true, false⟩) initMouseState).2.count
      Effect.fullscreenHotkeyCheck = 0 := by
  exact ⟨(c9_fullscreen_hotkey ⟨fun c => c, false⟩ ⟨0, 0, 100, 100⟩ true
      ⟨0x2A, false, false, false⟩ initMouseState).1 rfl,
    (c9_fullscreen_hotkey ⟨fun c => c, false⟩ ⟨0, 0, 100, 100⟩ true
      ⟨0x2A, false, true, false⟩ initMouseState).2 rfl⟩

/-- C7: with the wheel-present flag set, the wheel delta equals the
    signed notch value divided by 120 (truncating) and is pushed to
    `mouse_set_z` immediately, as the call right after the button
    write; with the flag unset, the delta is 0 and no wheel push
    happens at all for that report. -/
theorem c7_wheel (rect : Rect) (m : RawMouse) (s : MouseState) :
    (hasFlag m.usButtonFlags RI_MOUSE_WHEEL = true →
      wheelDelta m = cDiv (toSHORT m.usButtonData) 120 ∧
      (mouse_handle rect m s).2[1]? = some (MouseAction.setWheel (wheelDelta m))) ∧
    (hasFlag m.usButtonFlags RI_MOUSE_WHEEL = false →
      wheelDelta m = 0 ∧
      ∀ z, MouseAction.setWheel z ∉ (mouse_handle rect m s).2) := by
  constructor
  · intro hw
    exact ⟨by simp [wheelDelta, hw], by simp [mouse_handle, hw]⟩
  · intro hw
    exact ⟨by simp [wheelDelta, hw], fun z => by simp [mouse_handle, hw]⟩

/-- C7 witness: notch value 240 is pushed as delta 2, notch value
    0xFF88 (−120 as a SHORT) as −1; with the flag unset no push
    happens even with a nonzero payload. -/
theorem c7_wheel_witness :
    (wheelDelta ⟨0, 0x0400, 240, 0, 0⟩ = 2 ∧
     (mouse_handle ⟨0, 0, 100, 100⟩ ⟨0, 0x0400, 240, 0, 0⟩ initMouseState).2[1]? =
       some (MouseAction.setWheel 2)) ∧
    wheelDelta ⟨0, 0x0400, 0xFF88, 0, 0⟩ = -1 ∧
    (wheelDelta ⟨0, 0, 240, 0, 0⟩ = 0 ∧
     MouseAction.setWheel 2 ∉
       (mouse_handle ⟨0, 0, 100, 100⟩ ⟨0, 0, 240, 0, 0⟩ initMouseState).2) := by
  have h1 := (c7_wheel ⟨0, 0, 100, 100⟩ ⟨0, 0x0400, 240, 0, 0⟩ initMouseState).1 (by decide)
  have h2 := (c7_wheel ⟨0, 0, 100, 100⟩ ⟨0, 0x0400, 0xFF88, 0, 0⟩ initMouseState).1 (by decide)
  have h3 := (c7_wheel ⟨0, 0, 100, 100⟩ ⟨0, 0, 240, 0, 0⟩ initMouseState).2 (by decide)
  refine ⟨⟨?_, ?_⟩, ?_, h3.1, h3.2 2⟩
  · rw [h1.1]; decide
  · rw [h1.2, h1.1]; decide
  · rw [h2.1]; decide

/-- C8: for an absolute-mode report the deltas are the coordinate
    differences to the previous sample divided by 25 (C truncating
    division), the scaled pair passed to `mouse_scale` uses exactly
    those deltas, and the previous sample is then updated to the
    current one; for a relative-mode report dx, dy are the raw
    sample values unchanged. -/
theorem c8_motion (rect : Rect) (m : RawMouse) (s : MouseState) :
    (hasFlag m.usFlags MOUSE_MOVE_ABSOLUTE = true →
      motion_delta m s = (cDiv (m.lLastX - s.x) 25, cDiv (m.lLastY - s.y) 25) ∧
      MouseAction.scale (cDiv (m.lLastX - s.x) 25) (cDiv (m.lLastY - s.y) 25) ∈
        (mouse_handle rect m s).2 ∧
      (mouse_handle rect m s).1.x = m.lLastX ∧
      (mouse_handle rect m s).1.y = m.lLastY) ∧
    (hasFlag m.usFlags MOUSE_MOVE_ABSOLUTE = false →
      motion_delta m s = (m.lLastX, m.lLastY) ∧
      MouseAction.scale m.lLastX m.lLastY ∈ (mouse_handle rect m s).2) := by
  constructor
  · intro ha
    refine ⟨by simp [motion_delta, ha], ?_, by simp [mouse_handle, ha],
      by simp [mouse_handle, ha]⟩
    simp [mouse_handle, motion_delta, ha]
  · intro ha
    exact ⟨by simp [motion_delta, ha], by simp [mouse_handle, motion_delta, ha]⟩

/-- C8 witness: previous sample (1000, 1000) and absolute sample
    (1050, 975) give deltas (2, −1) — truncation toward zero — and
    the stored sample becomes (1050, 975); a relative report (7, −3)
    passes (7, −3) through unchanged. -/
theorem c8_motion_witness :
    (motion_delta ⟨1, 0, 0, 1050, 975⟩ ⟨1000, 1000, 0⟩ = (2, -1) ∧
     (mouse_handle ⟨0, 0, 100, 100⟩ ⟨1, 0, 0, 1050, 975⟩ ⟨1000, 1000, 0⟩).1.x = 1050 ∧
     (mouse_handle ⟨0, 0, 100, 100⟩ ⟨1, 0, 0, 1050, 975⟩ ⟨1000, 1000, 0⟩).1.y = 975) ∧
    (motion_delta ⟨0, 0, 0, 7, -3⟩ ⟨1000, 1000, 0⟩ = (7, -3) ∧
     MouseAction.scale 7 (-3) ∈
       (mouse_handle ⟨0, 0, 100, 100⟩ ⟨0, 0, 0, 7, -3⟩ ⟨1000, 1000, 0⟩).2) := by
  have h1 := (c8_motion ⟨0, 0, 100, 100⟩ ⟨1, 0, 0, 1050, 975⟩ ⟨1000, 1000, 0⟩).1 (by decide)
  have h2 := (c8_motion ⟨0, 0, 100, 100⟩ ⟨0, 0, 0, 7, -3⟩ ⟨1000, 1000, 0⟩).2 (by decide)
  refine ⟨⟨?_, h1.2.2.1, h1.2.2.2⟩, ?_, h2.2⟩
  · rw [h1.1]; decide
  · rw [h2.1]

/-- C1 counterexample: with the capture flag false, a mouse report is
    NOT "still decoded": for the absolute report (50, 75) from the
    initial state, the dispatcher leaves the decoder's internal
    last-sample state untouched, whereas decoding the report would
    have recorded (50, 75). -/
theorem c1_capture_counterexample :
    (handle_input ⟨fun c => c, false⟩ ⟨0, 0, 100, 100⟩ false
        (.mouse ⟨1, 0, 0, 50, 75⟩) initMouseState).1 ≠
      (mouse_handle ⟨0, 0, 100, 100⟩ ⟨1, 0, 0, 50, 75⟩ initMouseState).1 := by
  decide

/-- C1 (amended): with the pointer-capture flag false, a mouse report
    is dropped before decoding — the state (including the decoder's
    last-sample memory) is unchanged and no effect is produced, so in
    particular no event reaches the emulated device; keyboard reports
    are handled identically whatever the capture flag. -/
theorem c1_capture_gating (cfg : KbConfig) (rect : Rect) (cap : Bool)
    (m : RawMouse) (kb : RawKeyboard) (s : MouseState) :
    handle_input cfg rect false (.mouse m) s = (s, []) ∧
    handle_input cfg rect cap (.keyboard kb) s =
      handle_input cfg rect true (.keyboard kb) s :=
  ⟨rfl, rfl⟩

/-- C2 counterexample: the host-cursor recenter also occurs for a
    relative-mode report: decoding the relative report (3, 4) emits a
    `SetCursorPos` call to the window-rectangle center (50, 50). -/
theorem c2_recenter_counterexample :
    MouseAction.setCursorPos 50 50 ∈
      (mouse_handle ⟨0, 0, 100, 100⟩ ⟨0, 0, 0, 3, 4⟩ initMouseState).2 := by
  decide

/-- C2 (amended): the recenter side effect occurs exactly once per
    mouse report — relative or absolute alike — as the last call of
    the decoder, after motion scaling/forwarding, with the coordinates
    of the window-rectangle center. -/
theorem c2_recenter_every_report (rect : Rect) (m : RawMouse) (s : MouseState) :
    (mouse_handle rect m s).2.count
      (MouseAction.setCursorPos (rect_center rect).1 (rect_center rect).2) = 1 ∧
    (mouse_handle rect m s).2.getLast? =
      some (MouseAction.setCursorPos (rect_center rect).1 (rect_center rect).2) := by
  constructor
  · by_cases hw : hasFlag m.usButtonFlags RI_MOUSE_WHEEL = true <;>
      simp [mouse_handle, hw]
  · simp only [mouse_handle]
    rw [List.getLast?_concat]

/-- C3 counterexample: the last-sample state is zero-initialized, not
    initialized to the first-seen sample: the very first absolute
    report (1000, 500) is decoded against the initial state (0, 0)
    and yields the nonzero delta (40, 20) = (1000/25, 500/25). -/
theorem c3_first_sample_counterexample :
    initMouseState.x = 0 ∧ initMouseState.y = 0 ∧
    MouseAction.scale 40 20 ∈
      (mouse_handle ⟨0, 0, 100, 100⟩ ⟨1, 0, 0, 1000, 500⟩ initMouseState).2 ∧
    (40 : Int) ≠ 0 := by
  refine ⟨rfl, rfl, ?_, by decide⟩
  decide

/-- C3 (amended): the last-sample state starts at (0, 0) — the C
    statics are zero-initialized — so the first absolute report's
    delta is its sample divided by 25; every absolute report then
    overwrites the state with its own coordinates, and relative
    reports leave it unchanged, so on each later absolute report the
    previous-sample state equals the coordinates of the immediately
    preceding absolute report. -/
theorem c3_last_sample_state (rect : Rect) (m : RawMouse) (s : MouseState) :
    initMouseState.x = 0 ∧ initMouseState.y = 0 ∧
    (hasFlag m.usFlags MOUSE_MOVE_ABSOLUTE = true →
      motion_delta m initMouseState = (cDiv m.lLastX 25, cDiv m.lLastY 25) ∧
      (mouse_handle rect m s).1.x = m.lLastX ∧
      (mouse_handle rect m s).1.y = m.lLastY) ∧
    (hasFlag m.usFlags MOUSE_MOVE_ABSOLUTE = false →
      (mouse_handle rect m s).1.x = s.x ∧ (mouse_handle rect m s).1.y = s.y) := by
  refine ⟨rfl, rfl, fun ha => ⟨?_, ?_, ?_⟩, fun ha => ⟨?_, ?_⟩⟩
  · simp [motion_delta, ha, initMouseState]
  · simp [mouse_handle, ha]
  · simp [mouse_handle, ha]
  · simp [mouse_handle, ha]
  · simp [mouse_handle, ha]

/-- C3 witness: the absolute report (1050, 975) over previous sample
    (1000, 1000) stores (1050, 975); a relative report leaves the
    stored sample (1000, 1000) unchanged; the first-report delta of
    the absolute sample (1000, 500) is (40, 20). -/
theorem c3_last_sample_state_witness :
    (motion_delta ⟨1, 0, 0, 1000, 500⟩ initMouseState = (40, 20) ∧
     (mouse_handle ⟨0, 0, 100, 100⟩ ⟨1, 0, 0, 1050, 975⟩ ⟨1000, 1000, 0⟩).1.x = 1050 ∧
     (mouse_handle ⟨0, 0, 100, 100⟩ ⟨1, 0, 0, 1050, 975⟩ ⟨1000, 1000, 0⟩).1.y = 975) ∧
    ((mouse_handle ⟨0, 0, 100, 100⟩ ⟨0, 0, 0, 7, -3⟩ ⟨1000, 1000, 0⟩).1.x = 1000 ∧
     (mouse_handle ⟨0, 0, 100, 100⟩ ⟨0, 0, 0, 7, -3⟩ ⟨1000, 1000, 0⟩).1.y = 1000) := by
  have h1 := (c3_last_sample_state ⟨0, 0, 100, 100⟩ ⟨1, 0, 0, 1000, 500⟩
    ⟨0, 0, 0⟩).2.2.1 (by decide)
  have h2 := (c3_last_sample_state ⟨0, 0, 100, 100⟩ ⟨1, 0, 0, 1050, 975⟩
    ⟨1000, 1000, 0⟩).2.2.1 (by decide)
  have h3 := (c3_last_sample_state ⟨0, 0, 100, 100⟩ ⟨0, 0, 0, 7, -3⟩
    ⟨1000, 1000, 0⟩).2.2.2 (by decide)
  refine ⟨⟨?_, h2.2.1, h2.2.2⟩, h3⟩
  rw [h1.1]; decide

end WinRawInput
